import Mathlib

/-!
Verification of the Karere backend's session-synchronization core against its
natural-language specification.  The definitions below are a shallow embedding
of the JavaScript source: the SQLite store (database.js), the Baileys
connection state machine, the history-download and incremental-sync loops, and
the WebSocket relay dispatch (download-all-contact-data.js).
-/

namespace Karere

/-- Row of the messages table (database.js, createTables).  The id column is
the primary key; content is nullable; timestamp is epoch milliseconds. -/
structure MessageRow where
  id : String
  chat_jid : String
  from_me : Bool
  message_type : String
  content : Option String
  timestamp : Int
  status : String
deriving Repr, DecidableEq, Inhabited

/-- Row of the chats table.  Columns jid, name, last_message_id,
last_message_timestamp, unread_count, is_archived and updated_at are from
database.js; last_message_type, last_message_from and avatar_base64 are the
extra columns of the enhanced schema described in the repository's
enhanced-database document. -/
structure ChatRow where
  jid : String
  name : Option String
  last_message_id : Option String
  last_message_timestamp : Option Int
  last_message_type : Option String
  last_message_from : Option String
  unread_count : Int
  is_archived : Bool
  avatar_base64 : Option String
  updated_at : Int
deriving Repr, DecidableEq, Inhabited

/-- Row of the contacts table (enhanced schema: the avatar is stored as
base64 data in the database). -/
structure ContactRow where
  jid : String
  name : Option String
  phone_number : Option String
  avatar_base64 : Option String
  is_blocked : Bool
deriving Repr, DecidableEq

/-- The local store: the three tables the claims are about. -/
structure DB where
  chats : List ChatRow
  messages : List MessageRow
  contacts : List ContactRow
deriving Repr, DecidableEq

/-- Database.saveMessage (database.js).  INSERT OR REPLACE INTO messages keyed
by the primary-key id, followed by UPDATE chats SET last_message_id,
last_message_timestamp, updated_at WHERE jid = chatJid.  The now argument
models the strftime clock used for updated_at. -/
def saveMessage (db : DB) (now : Int) (id : String) (chatJid : String)
    (fromMe : Bool) (content : Option String) (timestamp : Int)
    (messageType : String) (status : String) : DB :=
  let row : MessageRow :=
    { id := id, chat_jid := chatJid, from_me := fromMe,
      message_type := messageType, content := content,
      timestamp := timestamp, status := status }
  { db with
    messages := db.messages.filter (fun r => !(r.id == id)) ++ [row]
    chats := db.chats.map (fun c =>
      if c.jid == chatJid then
        { c with last_message_id := some id,
                 last_message_timestamp := some timestamp,
                 updated_at := now }
      else c) }

/-- Number of rows of the messages table carrying a given identifier. -/
def msgCount (db : DB) (id : String) : Nat :=
  (db.messages.filter (fun r => r.id == id)).length

/-- Descending-timestamp ordering used by the ORDER BY timestamp DESC query. -/
def msgDescOrder (a b : MessageRow) : Prop := b.timestamp ≤ a.timestamp

instance : DecidableRel msgDescOrder := fun a b =>
  inferInstanceAs (Decidable (b.timestamp ≤ a.timestamp))

instance : IsTotal MessageRow msgDescOrder :=
  ⟨fun a b => le_total b.timestamp a.timestamp⟩

instance : IsTrans MessageRow msgDescOrder :=
  ⟨fun _ _ _ h h' => le_trans h' h⟩

/-- Database.getMessages (database.js): SELECT messages of the chat ORDER BY
timestamp DESC LIMIT limit OFFSET offset, then reverse the page so that it is
returned in chronological order. -/
def getMessages (db : DB) (chatJid : String) (limit offset : Nat) :
    List MessageRow :=
  ((((db.messages.filter (fun m => m.chat_jid == chatJid)).insertionSort
      msgDescOrder).drop offset).take limit).reverse

/-- Modelled from the spec: Database.getMessage, the existence check of the
dedup rule.  The enhanced database module that implements it is not part of
the provided sources; the spec states that a message is considered already
present exactly when a row with its identifier exists. -/
def getMessage (db : DB) (id : String) : Option MessageRow :=
  db.messages.find? (fun r => r.id == id)

lemma filter_ne_then_eq_nil (l : List MessageRow) (id : String) :
    (l.filter (fun r => !(r.id == id))).filter (fun r => r.id == id) = [] := by
  induction l with
  | nil => rfl
  | cons a t ih =>
    by_cases h : a.id = id
    · simp [List.filter, h, ih]
    · simp only [List.filter]
      have hb : (a.id == id) = false := beq_false_of_ne h
      simp [hb, ih]

/-- Upserting a message replaces any row with the same identifier: afterwards
exactly one row carries that identifier, with the newly written fields, and
the count is independent of what the table held before. -/
lemma msgCount_saveMessage (db : DB) (now : Int) (id chatJid : String)
    (fromMe : Bool) (content : Option String) (timestamp : Int)
    (messageType status : String) :
    msgCount (saveMessage db now id chatJid fromMe content timestamp
      messageType status) id = 1 := by
  simp only [msgCount, saveMessage, List.filter_append]
  rw [filter_ne_then_eq_nil]
  simp

lemma mem_saveMessage_messages (db : DB) (now : Int) (id chatJid : String)
    (fromMe : Bool) (content : Option String) (timestamp : Int)
    (messageType status : String) (r : MessageRow)
    (hr : r ∈ (saveMessage db now id chatJid fromMe content timestamp
      messageType status).messages) (hid : r.id = id) :
    r = { id := id, chat_jid := chatJid, from_me := fromMe,
          message_type := messageType, content := content,
          timestamp := timestamp, status := status } := by
  simp only [saveMessage, List.mem_append] at hr
  rcases hr with hr | hr
  · exfalso
    have := List.of_mem_filter hr
    simp [hid] at this
  · simpa using hr

/-- Pieces of getMessages: rows of the page belong to the requested chat. -/
lemma getMessages_mem_chat (db : DB) (chatJid : String) (limit offset : Nat)
    (m : MessageRow) (hm : m ∈ getMessages db chatJid limit offset) :
    m.chat_jid = chatJid := by
  simp only [getMessages, List.mem_reverse] at hm
  have h1 := List.take_subset _ _ hm
  have h2 := List.drop_subset _ _ h1
  have h3 := (List.perm_insertionSort msgDescOrder _).mem_iff.mp h2
  have := List.of_mem_filter h3
  simpa using this

lemma getMessages_sorted (db : DB) (chatJid : String) (limit offset : Nat) :
    (getMessages db chatJid limit offset).Pairwise
      (fun a b => a.timestamp ≤ b.timestamp) := by
  have hs : ((db.messages.filter (fun m => m.chat_jid == chatJid)).insertionSort
      msgDescOrder).Pairwise msgDescOrder :=
    List.sorted_insertionSort msgDescOrder _
  have hpage : (((((db.messages.filter (fun m => m.chat_jid == chatJid)).insertionSort
      msgDescOrder).drop offset).take limit)).Pairwise msgDescOrder :=
    List.Pairwise.sublist ((List.take_sublist _ _).trans (List.drop_sublist _ _)) hs
  unfold getMessages
  rw [List.pairwise_reverse]
  exact hpage

/-- JavaScript truthiness of an optional string: absent and empty are falsy. -/
def strTruthy (o : Option String) : Bool := !(o.getD "" == "")

/-- JavaScript a-or-b on strings: the fallback is used when a is absent or
empty (the || operator treats the empty string as falsy). -/
def jsStr (o : Option String) (fallback : String) : String :=
  match o with
  | some s => if s == "" then fallback else s
  | none => fallback

/-- The message object of an upstream Baileys message, with one field per key
inspected by getMessageType.  conversation carries its text;
extendedTextMessage carries its text field; imageMessage and videoMessage
carry their optional caption; the remaining keys only matter by presence. -/
structure InnerMessage where
  conversation : Option String
  extendedTextMessage : Option String
  imageMessage : Option (Option String)
  videoMessage : Option (Option String)
  audioMessage : Bool
  documentMessage : Bool
  stickerMessage : Bool
  locationMessage : Bool
  liveLocationMessage : Bool
  contactMessage : Bool
  contactsArrayMessage : Bool
  groupInviteMessage : Bool
  buttonsMessage : Bool
  templateMessage : Bool
  listMessage : Bool
  reactionMessage : Bool
  pollCreationMessage : Bool
  pollUpdateMessage : Bool
deriving Repr, DecidableEq, Inhabited

/-- An upstream message as the sync loops see it: key.id, key.fromMe,
pushName, messageTimestamp (epoch seconds) and the optional message object. -/
structure WAMessage where
  keyId : String
  fromMe : Bool
  pushName : Option String
  messageTimestamp : Int
  message : Option InnerMessage
deriving Repr, DecidableEq, Inhabited

/-- getMessageType (download-all-contact-data.js) on a present message
object: the first truthy key of the fixed messageTypes table decides the
type, and anything else is unknown. -/
def getMessageTypeInner (m : InnerMessage) : String :=
  if strTruthy m.conversation then "text"
    else if m.extendedTextMessage.isSome then "text"
    else if m.imageMessage.isSome then "image"
    else if m.videoMessage.isSome then "video"
    else if m.audioMessage then "audio"
    else if m.documentMessage then "document"
    else if m.stickerMessage then "sticker"
    else if m.locationMessage then "location"
    else if m.liveLocationMessage then "live_location"
    else if m.contactMessage then "contact"
    else if m.contactsArrayMessage then "contacts"
    else if m.groupInviteMessage then "group_invite"
    else if m.buttonsMessage then "buttons"
    else if m.templateMessage then "template"
    else if m.listMessage then "list"
    else if m.reactionMessage then "reaction"
    else if m.pollCreationMessage then "poll"
    else if m.pollUpdateMessage then "poll_update"
    else "unknown"

/-- getMessageType on a whole upstream message: a missing message object is
classified as text, otherwise the message object decides. -/
def getMessageType (msg : WAMessage) : String :=
  match msg.message with
  | none => "text"
  | some m => getMessageTypeInner m

/-- getDisplayMessage: display text from the ordered known shapes - plain
conversation text, extended text, image caption, video caption - with the
bracketed placeholders of the source for caption-less media and unmatched
shapes, and the empty string when there is no message object at all. -/
def getDisplayMessage (msg : WAMessage) : String :=
  match msg.message with
  | none => ""
  | some m =>
    if strTruthy m.conversation then m.conversation.getD ""
    else if m.extendedTextMessage.isSome then m.extendedTextMessage.getD ""
    else if m.imageMessage.isSome then jsStr (m.imageMessage.getD none) "[Image]"
    else if m.videoMessage.isSome then jsStr (m.videoMessage.getD none) "[Video]"
    else "[Unsupported Message]"

/-- formatLastMessageContent: the chat-list preview is the full content for
text messages (with a placeholder when the content is absent or empty) and
null for every non-text type. -/
def formatLastMessageContent (content : Option String) (messageType : String) :
    Option String :=
  if messageType == "text" then some (jsStr content "No messages yet") else none

/-- The chat-list preview derived for an upstream message, as handleHistorySet
computes it: display content fed into formatLastMessageContent together with
the classified type. -/
def lastMessagePreview (msg : WAMessage) : Option String :=
  formatLastMessageContent (some (getDisplayMessage msg)) (getMessageType msg)

/-- The known display shapes named by the spec: plain text, extended text,
image caption, video caption. -/
def knownDisplayShapeB (msg : WAMessage) : Bool :=
  match msg.message with
  | none => false
  | some m =>
    strTruthy m.conversation || m.extendedTextMessage.isSome ||
      m.imageMessage.isSome || m.videoMessage.isSome

/-- Action the relay server takes in response to one inbound command
(handleFrontendCommand): dispatch to a named handler, answer with a typed
error event, close the client connection, or ignore the command.  The last
two never occur in the source; they are present so that their absence is a
provable statement. -/
inductive DispatchAction
  | handled (handlerName : String)
  | reply (eventType : String) (errType : String) (errMessage : String)
  | closeClient
  | ignored
deriving Repr, DecidableEq

/-- The closed inbound command set of the relay protocol. -/
def knownCommands : List String :=
  ["get_initial_chats", "send_message", "get_message_history", "typing_start",
   "typing_stop", "health_check", "sync_contacts", "get_contact_info"]

/-- handleFrontendCommand: switch on the command type string; the default
branch sends a typed unknown_command error event naming the command. -/
def handleFrontendCommand (cmdType : String) : DispatchAction :=
  match cmdType with
  | "get_initial_chats" => .handled "handleGetInitialChats"
  | "send_message" => .handled "handleSendMessage"
  | "get_message_history" => .handled "handleGetMessageHistory"
  | "typing_start" => .handled "handleTypingStart"
  | "typing_stop" => .handled "handleTypingStop"
  | "health_check" => .handled "handleHealthCheck"
  | "sync_contacts" => .handled "handleSyncContacts"
  | "get_contact_info" => .handled "handleGetContactInfo"
  | _ => .reply "error" "unknown_command" ("Unknown command: " ++ cmdType)

/-- Cause of an upstream close notification, as handleConnectionUpdate
distinguishes it: the DisconnectReason.loggedOut status code versus anything
else. -/
inductive DisconnectCause
  | loggedOut
  | other
deriving Repr, DecidableEq

/-- MAX_RECONNECT_ATTEMPTS of the source. -/
def MAX_RECONNECT_ATTEMPTS : Nat := 5

/-- RECONNECT_DELAY of the source, in milliseconds. -/
def RECONNECT_DELAY : Nat := 5000

/-- Effect of handling one upstream close event: resulting reconnect-attempt
counter, whether credential material was deleted, whether another connect was
scheduled and with which delay, the events sent to the frontend, and whether
the cached chats snapshot was cleared. -/
structure CloseEffect where
  reconnectAttempts : Nat
  credsDeleted : Bool
  scheduledConnect : Bool
  scheduledDelayMs : Nat
  events : List String
  snapshotCleared : Bool
deriving Repr, DecidableEq

/-- handleConnectionUpdate, connection close branch: the snapshot is always
cleared and connection_status is always emitted; a logout deletes the
credentials, resets the counter and schedules a connect after 2000 ms; any
other cause schedules a retry after RECONNECT_DELAY while the counter is
below MAX_RECONNECT_ATTEMPTS, incrementing it, and otherwise emits the
terminal connection_failed event without scheduling anything. -/
def handleConnectionClose (attempts : Nat) (cause : DisconnectCause) :
    CloseEffect :=
  match cause with
  | .loggedOut =>
    { reconnectAttempts := 0, credsDeleted := true, scheduledConnect := true,
      scheduledDelayMs := 2000, events := ["connection_status"],
      snapshotCleared := true }
  | .other =>
    if attempts < MAX_RECONNECT_ATTEMPTS then
      { reconnectAttempts := attempts + 1, credsDeleted := false,
        scheduledConnect := true, scheduledDelayMs := RECONNECT_DELAY,
        events := ["connection_status"], snapshotCleared := true }
    else
      { reconnectAttempts := attempts, credsDeleted := false,
        scheduledConnect := false, scheduledDelayMs := 0,
        events := ["connection_status", "connection_failed"],
        snapshotCleared := true }

/-- Attempt counter after n consecutive non-logout close events starting from
counter a. -/
def failIter : Nat → Nat → Nat
  | 0, a => a
  | n + 1, a => (handleConnectionClose (failIter n a) .other).reconnectAttempts

/-- Row shape produced by the enhanced chat-listing query: the chat columns
joined with the content of its last message and with the contact's display
name, avatar and phone number. -/
structure ChatListRow where
  jid : String
  name : Option String
  last_message_content : Option String
  last_message_timestamp : Option Int
  last_message_type : Option String
  last_message_from : Option String
  unread_count : Int
  avatar_base64 : Option String
  contact_name : Option String
  contact_avatar_base64 : Option String
  contact_phone_number : Option String
deriving Repr, DecidableEq, Inhabited

/-- Descending order on optional last-message timestamps, absent timestamps
last (SQLite sorts NULLs last under ORDER BY DESC). -/
def tsKeyGe : Option Int → Option Int → Prop
  | none, none => True
  | some _, none => True
  | none, some _ => False
  | some x, some y => y ≤ x

instance : ∀ x y : Option Int, Decidable (tsKeyGe x y)
  | none, none => .isTrue trivial
  | some _, none => .isTrue trivial
  | none, some _ => .isFalse (fun h => h)
  | some x, some y => inferInstanceAs (Decidable (y ≤ x))

/-- Most-recent-activity-first ordering on chat rows. -/
def chatOrder (a b : ChatRow) : Prop :=
  tsKeyGe a.last_message_timestamp b.last_message_timestamp

instance : DecidableRel chatOrder := fun a b =>
  inferInstanceAs (Decidable (tsKeyGe a.last_message_timestamp
    b.last_message_timestamp))

lemma tsKeyGe_total (x y : Option Int) : tsKeyGe x y ∨ tsKeyGe y x := by
  rcases x with _ | tx <;> rcases y with _ | ty
  · left; trivial
  · right; trivial
  · left; trivial
  · simpa [tsKeyGe] using le_total ty tx

lemma tsKeyGe_trans (x y z : Option Int) (hxy : tsKeyGe x y)
    (hyz : tsKeyGe y z) : tsKeyGe x z := by
  rcases z with _ | tz
  · rcases x with _ | tx <;> trivial
  · rcases y with _ | ty
    · exact absurd hyz (by simp [tsKeyGe])
    · rcases x with _ | tx
      · exact absurd hxy (by simp [tsKeyGe])
      · exact le_trans hyz hxy

instance : IsTotal ChatRow chatOrder :=
  ⟨fun a b => tsKeyGe_total a.last_message_timestamp b.last_message_timestamp⟩

instance : IsTrans ChatRow chatOrder :=
  ⟨fun _ _ _ h h' => tsKeyGe_trans _ _ _ h h'⟩

/-- Join of one chat row with its contact row and last-message row. -/
def joinChatRow (db : DB) (c : ChatRow) : ChatListRow :=
  { jid := c.jid
    name := c.name
    last_message_content :=
      (db.messages.find? (fun m => some m.id == c.last_message_id)).bind
        (fun m => m.content)
    last_message_timestamp := c.last_message_timestamp
    last_message_type := c.last_message_type
    last_message_from := c.last_message_from
    unread_count := c.unread_count
    avatar_base64 := c.avatar_base64
    contact_name :=
      (db.contacts.find? (fun t => t.jid == c.jid)).bind (fun t => t.name)
    contact_avatar_base64 :=
      (db.contacts.find? (fun t => t.jid == c.jid)).bind
        (fun t => t.avatar_base64)
    contact_phone_number :=
      (db.contacts.find? (fun t => t.jid == c.jid)).bind
        (fun t => t.phone_number) }

/-- Modelled from the spec: the enhanced Database.getChats.  The enhanced
database module implementing it is not part of the provided sources (only its
documentation and its callers are); per the spec it returns the non-archived
chats ordered by most-recent activity (last-message timestamp) descending,
limited, and joined with contact display name, avatar and phone number where
a contact row exists. -/
def getChats (db : DB) (limit : Nat) : List ChatListRow :=
  (((db.chats.filter (fun c => !c.is_archived)).insertionSort
      chatOrder).take limit).map (joinChatRow db)

/-- Chat item sent to the UI client (handleGetInitialChats mapping). -/
structure FrontendChat where
  jid : String
  name : String
  lastMessage : Option String
  timestamp : Option Int
  lastMessageType : String
  lastMessageFrom : Option String
  unreadCount : Int
  avatarBase64 : Option String
  chatAvatarBase64 : Option String
  phoneNumber : Option String
deriving Repr, DecidableEq, Inhabited

/-- handleGetInitialChats per-row mapping: the contact display name takes
precedence over the chat's stored name, which takes precedence over the raw
jid (JavaScript || chain); the preview is formatLastMessageContent of the
stored content and type. -/
def chatToFrontend (c : ChatListRow) : FrontendChat :=
  { jid := c.jid
    name := jsStr c.contact_name (jsStr c.name c.jid)
    lastMessage := formatLastMessageContent c.last_message_content
      (jsStr c.last_message_type "text")
    timestamp := c.last_message_timestamp
    lastMessageType := jsStr c.last_message_type "text"
    lastMessageFrom := c.last_message_from
    unreadCount := c.unread_count
    avatarBase64 := c.contact_avatar_base64
    chatAvatarBase64 := c.avatar_base64
    phoneNumber := c.contact_phone_number }

/-- State of the relay protocol server: whether a client socket is attached,
the client-waiting flag, the cached initial-chats snapshot, and the upstream
connection status string. -/
structure RelayState where
  clientConnected : Bool
  clientIsWaitingForChats : Bool
  initialChatsPayload : Option (List FrontendChat)
  baileysConnectionStatus : String
deriving Repr, DecidableEq

/-- One relay transition: the successor state and the event types sent to the
client during the transition. -/
structure RelayStep where
  state : RelayState
  events : List String
deriving Repr, DecidableEq

/-- handleWebSocketConnection: attaching a client only sends baileys_ready
when the upstream connection is already open; the cached snapshot is never
pushed here. -/
def handleWebSocketConnection (s : RelayState) : RelayStep :=
  let s1 := { s with clientConnected := true }
  if s.baileysConnectionStatus == "open" then ⟨s1, ["baileys_ready"]⟩
  else ⟨s1, []⟩

/-- The ws close handler: clears the active-client reference and the
client-waiting flag. -/
def handleClientClose (s : RelayState) : RelayState :=
  { s with clientConnected := false, clientIsWaitingForChats := false }

/-- handleGetInitialChats dispatch: send the cached snapshot when present,
fall back to the chats stored in the database, and only when both are empty
set the client-waiting flag. -/
def handleGetInitialChats (s : RelayState) (db : DB) : RelayStep :=
  match s.initialChatsPayload with
  | some _ => ⟨s, ["initial_chats"]⟩
  | none =>
    if (getChats db 50).length > 0 then ⟨s, ["initial_chats"]⟩
    else ⟨{ s with clientIsWaitingForChats := true }, []⟩

/-- handleHistorySet tail: caching a freshly produced snapshot delivers it
immediately exactly when a client was waiting, clearing the flag. -/
def produceInitialChats (s : RelayState) (chats : List FrontendChat) :
    RelayStep :=
  let s1 := { s with initialChatsPayload := some chats }
  if s.clientIsWaitingForChats then
    ⟨{ s1 with clientIsWaitingForChats := false }, ["initial_chats"]⟩
  else ⟨s1, []⟩

/-- One message step of the download batch loop (downloadMessageHistory body):
the existence check by identifier runs before any insertion; a message is
saved when it has display content or a non-text type, with status received
and its timestamp scaled to epoch milliseconds. -/
def saveDownloadedMsg (now : Int) (jid : String) (acc : DB × Nat)
    (msg : WAMessage) : DB × Nat :=
  match getMessage acc.1 msg.keyId with
  | some _ => acc
  | none =>
    let content := getDisplayMessage msg
    let mtype := getMessageType msg
    if content ≠ "" ∨ mtype ≠ "text" then
      (saveMessage acc.1 now msg.keyId jid msg.fromMe (some content)
        (msg.messageTimestamp * 1000) mtype "received", acc.2 + 1)
    else acc

/-- Saving one fetched batch: fold of the per-message step, counting how many
messages were actually saved. -/
def saveBatch (db : DB) (now : Int) (jid : String)
    (msgs : List WAMessage) : DB × Nat :=
  msgs.foldl (saveDownloadedMsg now jid) (db, 0)

/-- Result of the download batch loop: final store, number of saved messages,
and the batch sizes requested from the upstream, one entry per fetch call. -/
structure DlResult where
  db : DB
  savedCount : Nat
  requests : List Nat
deriving Repr, DecidableEq

/-- The batch loop of downloadMessageHistory: while the remaining limit is
positive, request min 50 remaining messages; stop after a fetch that returns
nothing or fewer messages than requested; otherwise save the batch and
continue.  The loop consumes at least one unit of the remaining limit per
iteration, so a structural fuel equal to the initial limit (as
downloadMessageHistory passes it) is never exhausted; fuel keeps the
definition kernel-computable. -/
def dlGo (now : Int) (fetch : Nat → List WAMessage) (jid : String) :
    Nat → DB → Nat → Nat → DlResult
  | 0, db, _, _ => { db := db, savedCount := 0, requests := [] }
  | fuel + 1, db, remaining, idx =>
    if remaining = 0 then { db := db, savedCount := 0, requests := [] }
    else
      let cur := min 50 remaining
      let msgs := fetch idx
      if msgs.length = 0 then { db := db, savedCount := 0, requests := [cur] }
      else
        let res := saveBatch db now jid msgs
        if msgs.length < cur then
          { db := res.1, savedCount := res.2, requests := [cur] }
        else
          let rest := dlGo now fetch jid fuel res.1 (remaining - cur) (idx + 1)
          { db := rest.db, savedCount := res.2 + rest.savedCount,
            requests := cur :: rest.requests }

/-- downloadMessageHistory: nothing is fetched unless the upstream connection
is open; otherwise the batch loop runs with the per-chat message cap as the
remaining limit. -/
def downloadMessageHistory (connOpen : Bool) (db : DB) (now : Int)
    (fetch : Nat → List WAMessage) (jid : String) (limit : Nat) : DlResult :=
  if connOpen then dlGo now fetch jid limit db limit 0
  else { db := db, savedCount := 0, requests := [] }

/-- Demonstration store used by concrete witnesses: one chat whose stored
last-message timestamp is 5000, and three messages of that chat saved out of
timestamp order. -/
def demoDB : DB :=
  { chats := [{ jid := "c", name := some "Chat", last_message_id := some "m1",
                last_message_timestamp := some 5000, last_message_type := none,
                last_message_from := none, unread_count := 0,
                is_archived := false, avatar_base64 := none, updated_at := 0 }]
    messages :=
      [{ id := "m1", chat_jid := "c", from_me := false, message_type := "text",
         content := some "third", timestamp := 30, status := "received" },
       { id := "m2", chat_jid := "c", from_me := true, message_type := "text",
         content := some "first", timestamp := 10, status := "sent" },
       { id := "m3", chat_jid := "c", from_me := false, message_type := "text",
         content := some "second", timestamp := 20, status := "received" }]
    contacts := [] }

/-- C1: For every message identifier, upserting a message row twice with the
same identifier but different field values (in particular different status)
leaves exactly one row for that identifier in the messages table, with the
field values of the latest upsert; no duplicate row is ever created. -/
theorem saveMessage_upsert_idempotent (db : DB) (now1 now2 : Int)
    (id c1 c2 : String) (f1 f2 : Bool) (ct1 ct2 : Option String)
    (t1 t2 : Int) (mt1 mt2 s1 s2 : String) :
    msgCount (saveMessage (saveMessage db now1 id c1 f1 ct1 t1 mt1 s1)
      now2 id c2 f2 ct2 t2 mt2 s2) id = 1 ∧
    ∀ r ∈ (saveMessage (saveMessage db now1 id c1 f1 ct1 t1 mt1 s1)
      now2 id c2 f2 ct2 t2 mt2 s2).messages, r.id = id →
      r = { id := id, chat_jid := c2, from_me := f2, message_type := mt2,
            content := ct2, timestamp := t2, status := s2 } :=
  ⟨msgCount_saveMessage _ now2 id c2 f2 ct2 t2 mt2 s2,
   fun r hr hid => mem_saveMessage_messages _ now2 id c2 f2 ct2 t2 mt2 s2 r hr hid⟩

/-- Witness for C1: upserting the same identifier twice with different status
leaves a single row carrying the second status. -/
theorem saveMessage_upsert_idempotent_witness :
    msgCount (saveMessage (saveMessage demoDB 1 "m9" "c" false (some "a") 40
      "text" "sent") 2 "m9" "c" false (some "a") 40 "text" "read") "m9" = 1 ∧
    getMessage (saveMessage (saveMessage demoDB 1 "m9" "c" false (some "a") 40
      "text" "sent") 2 "m9" "c" false (some "a") 40 "text" "read") "m9" =
      some { id := "m9", chat_jid := "c", from_me := false,
             message_type := "text", content := some "a", timestamp := 40,
             status := "read" } :=
  ⟨(saveMessage_upsert_idempotent demoDB 1 2 "m9" "c" "c" false false
      (some "a") (some "a") 40 40 "text" "text" "sent" "read").1,
   by decide⟩

/-- C10: After every successful message upsert, the owning chat row's
last-message identifier and timestamp equal the identifier and timestamp of
the message just upserted, unconditionally - including when the new message's
timestamp is older than the previously stored last-message timestamp. -/
theorem saveMessage_chat_pointer (db : DB) (now : Int) (id chatJid : String)
    (fromMe : Bool) (content : Option String) (timestamp : Int)
    (messageType status : String) (c : ChatRow)
    (hc : c ∈ (saveMessage db now id chatJid fromMe content timestamp
      messageType status).chats)
    (hjid : c.jid = chatJid) :
    c.last_message_id = some id ∧ c.last_message_timestamp = some timestamp := by
  simp only [saveMessage, List.mem_map] at hc
  obtain ⟨c0, _, hfc⟩ := hc
  by_cases h : c0.jid = chatJid
  · rw [← hfc]
    simp [h]
  · exfalso
    apply h
    rw [← hjid, ← hfc]
    simp [beq_false_of_ne h]

/-- Witness for C10: saving a message with timestamp 1000 into a chat whose
stored last-message timestamp is 5000 still rewrites the pointer to the older
message - the pointer is not monotone in time. -/
theorem saveMessage_chat_pointer_witness :
    (saveMessage demoDB 7 "m0" "c" false (some "x") 1000 "text"
      "sent").chats.headI.last_message_id = some "m0" ∧
    (saveMessage demoDB 7 "m0" "c" false (some "x") 1000 "text"
      "sent").chats.headI.last_message_timestamp = some 1000 ∧
    demoDB.chats.headI.last_message_timestamp = some 5000 := by
  have h := saveMessage_chat_pointer demoDB 7 "m0" "c" false (some "x") 1000
    "text" "sent"
    ((saveMessage demoDB 7 "m0" "c" false (some "x") 1000 "text"
      "sent").chats.headI) (by decide) (by decide)
  exact ⟨h.1, h.2, by decide⟩

/-- C4: For every chat identifier, limit and offset, the message-listing
operation returns the selected page of that chat's messages in chronological
(ascending, non-decreasing) timestamp order, even though the internal query
selects in descending timestamp order. -/
theorem getMessages_chronological (db : DB) (chatJid : String)
    (limit offset : Nat) :
    (getMessages db chatJid limit offset).Pairwise
      (fun a b => a.timestamp ≤ b.timestamp) ∧
    ∀ m ∈ getMessages db chatJid limit offset, m.chat_jid = chatJid :=
  ⟨getMessages_sorted db chatJid limit offset,
   fun m hm => getMessages_mem_chat db chatJid limit offset m hm⟩

/-- Witness for C4: on the demonstration store the page comes back ascending
by timestamp (10, 20, 30) although the rows were stored out of order. -/
theorem getMessages_chronological_witness :
    (getMessages demoDB "c" 10 0).headI.chat_jid = "c" ∧
    (getMessages demoDB "c" 10 0).map (fun m => m.timestamp) = [10, 20, 30] :=
  ⟨(getMessages_chronological demoDB "c" 10 0).2 _ (by decide), by decide⟩

lemma failIter_of_max (a : Nat) (ha : MAX_RECONNECT_ATTEMPTS ≤ a) :
    ∀ n, failIter n a = a := by
  intro n
  induction n with
  | zero => rfl
  | succ n ih =>
    rw [failIter, ih]
    simp [handleConnectionClose, Nat.not_lt.mpr ha]

/-- C3 counterexample: starting from a fresh counter, handling the fifth
consecutive failed connect attempt still schedules another reconnect and does
not emit the terminal connection_failed event; the counter only then reaches
the maximum of five. -/
theorem fifth_failure_still_schedules :
    (handleConnectionClose (failIter 4 0) .other).scheduledConnect = true ∧
    ((handleConnectionClose (failIter 4 0) .other).events.contains
      "connection_failed") = false ∧
    failIter 5 0 = 5 := by
  decide

/-- C3 amended: a failed connect attempt increments the counter and schedules
a retry while the counter is below five, so the fifth consecutive failure
still schedules a sixth attempt; once the counter has reached five (from the
sixth consecutive failure on) no reconnect is ever scheduled again and the
terminal connection_failed event is emitted; a logout cause at any attempt
count deletes the stored credentials, resets the counter to zero, and
schedules a fresh connect. -/
theorem connection_close_policy (a : Nat) :
    (a < MAX_RECONNECT_ATTEMPTS →
      (handleConnectionClose a .other).scheduledConnect = true ∧
      (handleConnectionClose a .other).reconnectAttempts = a + 1 ∧
      "connection_failed" ∉ (handleConnectionClose a .other).events) ∧
    (MAX_RECONNECT_ATTEMPTS ≤ a →
      (handleConnectionClose a .other).scheduledConnect = false ∧
      "connection_failed" ∈ (handleConnectionClose a .other).events ∧
      ∀ n, (handleConnectionClose (failIter n a) .other).scheduledConnect
        = false) ∧
    ((handleConnectionClose a .loggedOut).credsDeleted = true ∧
     (handleConnectionClose a .loggedOut).reconnectAttempts = 0 ∧
     (handleConnectionClose a .loggedOut).scheduledConnect = true) := by
  refine ⟨fun h => ?_, fun h => ?_, ?_⟩
  · simp [handleConnectionClose, h]
  · refine ⟨?_, ?_, fun n => ?_⟩
    · simp [handleConnectionClose, Nat.not_lt.mpr h]
    · simp [handleConnectionClose, Nat.not_lt.mpr h]
    · rw [failIter_of_max a h n]
      simp [handleConnectionClose, Nat.not_lt.mpr h]
  · simp [handleConnectionClose]

/-- Witness for C3: at counter five a further failure schedules nothing, the
terminal event fires, and three more failures later nothing is scheduled
either; a logout at counter three resets the counter and schedules a
connect. -/
theorem connection_close_policy_witness :
    (handleConnectionClose 5 .other).scheduledConnect = false ∧
    "connection_failed" ∈ (handleConnectionClose 5 .other).events ∧
    (handleConnectionClose (failIter 3 5) .other).scheduledConnect = false ∧
    (handleConnectionClose 3 .loggedOut).credsDeleted = true ∧
    (handleConnectionClose 3 .loggedOut).reconnectAttempts = 0 ∧
    (handleConnectionClose 3 .loggedOut).scheduledConnect = true := by
  have h5 := (connection_close_policy 5).2.1 (by decide)
  have hl := (connection_close_policy 3).2.2
  exact ⟨h5.1, h5.2.1, h5.2.2 3, hl.1, hl.2.1, hl.2.2⟩

/-- C9: every inbound relay command whose type is not in the enumerated
command set is answered with a typed error event identifying the unknown
command; the command is neither ignored nor does it close the connection. -/
theorem unknown_command_typed_error (cmdType : String)
    (h : cmdType ∉ knownCommands) :
    handleFrontendCommand cmdType =
      .reply "error" "unknown_command" ("Unknown command: " ++ cmdType) ∧
    handleFrontendCommand cmdType ≠ .closeClient ∧
    handleFrontendCommand cmdType ≠ .ignored := by
  have heq : handleFrontendCommand cmdType =
      .reply "error" "unknown_command" ("Unknown command: " ++ cmdType) := by
    unfold handleFrontendCommand
    split <;> simp_all [knownCommands]
  refine ⟨heq, ?_, ?_⟩ <;> rw [heq] <;> intro hcon <;> cases hcon

/-- Witness for C9: the command type bogus is outside the enumerated set and
is answered with the typed unknown_command error event. -/
theorem unknown_command_typed_error_witness :
    handleFrontendCommand "bogus" =
      .reply "error" "unknown_command" "Unknown command: bogus" := by
  simpa using (unknown_command_typed_error "bogus" (by decide)).1

/-- Concrete upstream message with no message object at all. -/
def stubMsg : WAMessage :=
  { keyId := "s0", fromMe := false, pushName := none, messageTimestamp := 0,
    message := none }

/-- C8 counterexample: a payload with no message object lies outside the known
display shapes, yet the code classifies it with the text type (not a typed
non-text classification) and derives the placeholder preview instead of a
null summary. -/
theorem preview_stub_counterexample :
    knownDisplayShapeB stubMsg = false ∧
    getMessageType stubMsg = "text" ∧
    lastMessagePreview stubMsg = some "No messages yet" := by
  decide

lemma ite_ne_text (b : Bool) (x y : String) (hx : x ≠ "text")
    (hy : y ≠ "text") : (if b then x else y) ≠ "text" := by
  cases b
  · simpa using hy
  · simpa using hx

lemma jsStr_ne_empty (content : Option String) (fb : String) (hfb : fb ≠ "") :
    jsStr content fb ≠ "" := by
  cases content with
  | none => simpa [jsStr] using hfb
  | some s =>
    by_cases hs : s = ""
    · simpa [jsStr, hs] using hfb
    · simpa [jsStr, beq_false_of_ne hs] using hs

lemma formatLastMessageContent_ne_empty (content : Option String)
    (messageType : String) :
    formatLastMessageContent content messageType ≠ some "" := by
  unfold formatLastMessageContent
  split
  · simp only [ne_eq, Option.some_inj]
    exact jsStr_ne_empty content "No messages yet" (by decide)
  · simp

lemma formatLastMessageContent_of_ne (content : Option String)
    (messageType : String) (h : messageType ≠ "text") :
    formatLastMessageContent content messageType = none := by
  unfold formatLastMessageContent
  simp [beq_false_of_ne h]

/-- C8 amended: for every payload that does carry a message object, a shape
outside the known display shapes is classified with a typed non-text message
type and yields a null chat-list preview; and for every payload whatsoever
the preview is never the empty string (a message-object-less payload instead
gets the text type and the placeholder preview). -/
theorem display_classification_amended (msg : WAMessage) :
    (∀ m, msg.message = some m → knownDisplayShapeB msg = false →
      getMessageType msg ≠ "text" ∧ lastMessagePreview msg = none) ∧
    lastMessagePreview msg ≠ some "" := by
  constructor
  · intro m hm hks
    simp only [knownDisplayShapeB, hm, Bool.or_eq_false_iff] at hks
    obtain ⟨⟨⟨h1, h2⟩, h3⟩, h4⟩ := hks
    have htype : getMessageType msg ≠ "text" := by
      have hunf : getMessageType msg = getMessageTypeInner m := by
        unfold getMessageType
        rw [hm]
      rw [hunf]
      unfold getMessageTypeInner
      simp only [h1, h2, h3, h4, Bool.false_eq_true, if_false]
      repeat
        apply ite_ne_text _ _ _ (by decide)
      decide
    exact ⟨htype, formatLastMessageContent_of_ne _ _ htype⟩
  · exact formatLastMessageContent_ne_empty _ _

/-- Concrete sticker payload: a message object present but outside the known
display shapes. -/
def stickerInner : InnerMessage :=
  { conversation := none, extendedTextMessage := none, imageMessage := none,
    videoMessage := none, audioMessage := false, documentMessage := false,
    stickerMessage := true, locationMessage := false,
    liveLocationMessage := false, contactMessage := false,
    contactsArrayMessage := false, groupInviteMessage := false,
    buttonsMessage := false, templateMessage := false, listMessage := false,
    reactionMessage := false, pollCreationMessage := false,
    pollUpdateMessage := false }

/-- Concrete upstream sticker message. -/
def stickerMsg : WAMessage :=
  { keyId := "s1", fromMe := false, pushName := none, messageTimestamp := 0,
    message := some stickerInner }

/-- Witness for C8: a sticker payload is outside the known display shapes and
its chat-list preview is null. -/
theorem display_classification_amended_witness :
    lastMessagePreview stickerMsg = none :=
  ((display_classification_amended stickerMsg).1 stickerInner rfl
    (by decide)).2

/-- Concrete chat item used in relay demonstrations. -/
def demoFrontendChat : FrontendChat :=
  { jid := "c", name := "Chat", lastMessage := some "hi",
    timestamp := some 1000, lastMessageType := "text",
    lastMessageFrom := some "me", unreadCount := 0, avatarBase64 := none,
    chatAvatarBase64 := none, phoneNumber := none }

/-- Relay state in which a cached initial-chats snapshot exists and the
upstream connection is open, before any client is attached. -/
def cachedSnapshotState : RelayState :=
  { clientConnected := false, clientIsWaitingForChats := false,
    initialChatsPayload := some [demoFrontendChat],
    baileysConnectionStatus := "open" }

/-- C6 counterexample: a client connecting while a cached snapshot exists is
not sent the snapshot on connect - the connect handler only emits
baileys_ready. -/
theorem connect_no_snapshot_counterexample :
    cachedSnapshotState.initialChatsPayload.isSome = true ∧
    ((handleWebSocketConnection cachedSnapshotState).events.contains
      "initial_chats") = false ∧
    (handleWebSocketConnection cachedSnapshotState).events =
      ["baileys_ready"] := by
  decide

/-- C6 amended: connecting never pushes the snapshot (at most baileys_ready
is sent); the cached snapshot is sent when the client issues the
get_initial_chats command, which falls back to the chats stored in the
database and sets the client-waiting flag only when both are empty; a
snapshot produced while the flag is set is delivered immediately and clears
the flag; client disconnect clears the flag and the active-client
reference. -/
theorem relay_snapshot_delivery (s : RelayState) (db : DB)
    (chats : List FrontendChat) :
    "initial_chats" ∉ (handleWebSocketConnection s).events ∧
    (s.initialChatsPayload.isSome = true →
      (handleGetInitialChats s db).events = ["initial_chats"]) ∧
    (s.initialChatsPayload = none → getChats db 50 = [] →
      (handleGetInitialChats s db).state.clientIsWaitingForChats = true ∧
      (handleGetInitialChats s db).events = []) ∧
    (s.initialChatsPayload = none → getChats db 50 ≠ [] →
      (handleGetInitialChats s db).events = ["initial_chats"]) ∧
    (s.clientIsWaitingForChats = true →
      (produceInitialChats s chats).events = ["initial_chats"] ∧
      (produceInitialChats s chats).state.clientIsWaitingForChats = false ∧
      (produceInitialChats s chats).state.initialChatsPayload = some chats) ∧
    (handleClientClose s).clientIsWaitingForChats = false ∧
    (handleClientClose s).clientConnected = false := by
  refine ⟨?_, fun hp => ?_, fun hp hdb => ?_, fun hp hdb => ?_,
    fun hw => ?_, ?_, ?_⟩
  · unfold handleWebSocketConnection
    split <;> simp
  · rcases hp' : s.initialChatsPayload with _ | p
    · rw [hp'] at hp
      cases hp
    · simp [handleGetInitialChats, hp']
  · constructor <;> simp [handleGetInitialChats, hp, hdb]
  · simp [handleGetInitialChats, hp, List.length_pos.mpr hdb]
  · refine ⟨?_, ?_, ?_⟩ <;> simp [produceInitialChats, hw]
  · simp [handleClientClose]
  · simp [handleClientClose]

/-- Relay state with no snapshot and a waiting client. -/
def waitingClientState : RelayState :=
  { clientConnected := true, clientIsWaitingForChats := true,
    initialChatsPayload := none, baileysConnectionStatus := "open" }

/-- Witness for C6: a snapshot produced while the client-waiting flag is set
is delivered immediately and the flag is cleared; a disconnect clears the
flag; connecting with a cached snapshot emits no initial_chats event. -/
theorem relay_snapshot_delivery_witness :
    (produceInitialChats waitingClientState [demoFrontendChat]).events =
      ["initial_chats"] ∧
    (produceInitialChats waitingClientState
      [demoFrontendChat]).state.clientIsWaitingForChats = false ∧
    (handleClientClose waitingClientState).clientIsWaitingForChats = false ∧
    "initial_chats" ∉ (handleWebSocketConnection cachedSnapshotState).events := by
  have h1 := relay_snapshot_delivery waitingClientState
    { chats := [], messages := [], contacts := [] } [demoFrontendChat]
  have h2 := (relay_snapshot_delivery cachedSnapshotState
    { chats := [], messages := [], contacts := [] } []).1
  have hw := h1.2.2.2.2.1 rfl
  exact ⟨hw.1, hw.2.1, h1.2.2.2.2.2.1, h2⟩

lemma mem_getChats (db : DB) (limit : Nat) (r : ChatListRow)
    (hr : r ∈ getChats db limit) :
    ∃ c, c ∈ db.chats ∧ c.is_archived = false ∧ r = joinChatRow db c := by
  simp only [getChats, List.mem_map] at hr
  obtain ⟨c, hc, rfl⟩ := hr
  have hc1 := List.take_subset _ _ hc
  have hc2 := (List.perm_insertionSort chatOrder _).mem_iff.mp hc1
  have hc3 := List.mem_filter.mp hc2
  exact ⟨c, hc3.1, by simpa using hc3.2, rfl⟩

/-- C7: For every limit, the chat-listing operation returns at most limit
non-archived chats, ordered by last-message timestamp descending, each joined
with the contact's display name, avatar and phone number where a contact row
exists, and the contact display name takes precedence over the chat's own
stored name in the item sent to the client. -/
theorem getChats_order_and_join (db : DB) (limit : Nat) :
    (getChats db limit).length ≤ limit ∧
    (getChats db limit).Pairwise
      (fun a b => tsKeyGe a.last_message_timestamp b.last_message_timestamp) ∧
    (∀ r ∈ getChats db limit,
      ∃ c ∈ db.chats, c.is_archived = false ∧ r = joinChatRow db c) ∧
    (∀ r ∈ getChats db limit, ∀ ct,
      db.contacts.find? (fun t => t.jid == r.jid) = some ct →
      r.contact_name = ct.name ∧ r.contact_avatar_base64 = ct.avatar_base64 ∧
      r.contact_phone_number = ct.phone_number) ∧
    (∀ r ∈ getChats db limit, ∀ n, r.contact_name = some n → n ≠ "" →
      (chatToFrontend r).name = n) := by
  refine ⟨?_, ?_, ?_, ?_, ?_⟩
  · rw [getChats, List.length_map, List.length_take]
    exact min_le_left _ _
  · have hs : ((db.chats.filter (fun c => !c.is_archived)).insertionSort
        chatOrder).Pairwise chatOrder :=
      List.sorted_insertionSort chatOrder _
    have ht := List.Pairwise.sublist (List.take_sublist limit _) hs
    rw [getChats, List.pairwise_map]
    exact ht.imp (fun h => h)
  · intro r hr
    obtain ⟨c, hc, harch, heq⟩ := mem_getChats db limit r hr
    exact ⟨c, hc, harch, heq⟩
  · intro r hr ct hct
    obtain ⟨c, _, _, rfl⟩ := mem_getChats db limit r hr
    simp only [joinChatRow] at hct ⊢
    rw [hct]
    exact ⟨rfl, rfl, rfl⟩
  · intro r _ n hn hne
    simp only [chatToFrontend, hn, jsStr]
    simp [beq_false_of_ne hne]

/-- Demonstration store for the chat listing: two live chats (the newer one
without a contact row, the older one with contact Alice) and one archived
chat. -/
def demoDB2 : DB :=
  { chats :=
      [{ jid := "one@s", name := none, last_message_id := some "m1",
         last_message_timestamp := some 2000, last_message_type := some "text",
         last_message_from := some "me", unread_count := 0,
         is_archived := false, avatar_base64 := none, updated_at := 0 },
       { jid := "two@s", name := some "ChatTwo", last_message_id := some "m2",
         last_message_timestamp := some 3000, last_message_type := some "text",
         last_message_from := some "two@s", unread_count := 1,
         is_archived := false, avatar_base64 := none, updated_at := 0 },
       { jid := "arch@s", name := some "Old", last_message_id := none,
         last_message_timestamp := some 9000, last_message_type := none,
         last_message_from := none, unread_count := 0, is_archived := true,
         avatar_base64 := none, updated_at := 0 }]
    messages :=
      [{ id := "m1", chat_jid := "one@s", from_me := true,
         message_type := "text", content := some "hello", timestamp := 2000,
         status := "sent" },
       { id := "m2", chat_jid := "two@s", from_me := false,
         message_type := "text", content := some "yo", timestamp := 3000,
         status := "received" }]
    contacts :=
      [{ jid := "one@s", name := some "Alice", phone_number := some "+1",
         avatar_base64 := some "AAA", is_blocked := false }] }

/-- Witness for C7: on the demonstration store the listing is capped, ordered
newest first, and the display names resolve to the contact name where a
contact exists and to the chat name otherwise. -/
theorem getChats_order_and_join_witness :
    (getChats demoDB2 10).length ≤ 10 ∧
    ((getChats demoDB2 10).map chatToFrontend).headI.name = "ChatTwo" ∧
    (((getChats demoDB2 10).map chatToFrontend).getD 1 default).name =
      "Alice" ∧
    (getChats demoDB2 10).headI.last_message_timestamp = some 3000 :=
  ⟨(getChats_order_and_join demoDB2 10).1, by decide, by decide, by decide⟩

lemma dlGo_length_le (now : Int) (fetch : Nat → List WAMessage)
    (jid : String) :
    ∀ (fuel k : Nat) (db : DB) (remaining idx : Nat), remaining ≤ 50 * k →
      (dlGo now fetch jid fuel db remaining idx).requests.length ≤ k := by
  intro fuel
  induction fuel with
  | zero =>
    intro k db remaining idx _
    simp [dlGo]
  | succ fuel ih =>
    intro k db remaining idx hk
    by_cases h0 : remaining = 0
    · simp [dlGo, h0]
    · rcases k with _ | k'
      · omega
      · simp only [dlGo]
        rw [if_neg h0]
        by_cases hm : (fetch idx).length = 0
        · simp [hm]
        · rw [if_neg hm]
          by_cases hlt : (fetch idx).length < min 50 remaining
          · rw [if_pos hlt]
            simp
          · rw [if_neg hlt]
            have hrec := ih k' (saveBatch db now jid (fetch idx)).1
              (remaining - min 50 remaining) (idx + 1) (by omega)
            simp only [List.length_cons]
            omega

lemma dlGo_reqs_all_50 (now : Int) (fetch : Nat → List WAMessage)
    (jid : String) :
    ∀ (fuel : Nat) (db : DB) (remaining idx : Nat), 50 ∣ remaining →
      ∀ c ∈ (dlGo now fetch jid fuel db remaining idx).requests, c = 50 := by
  intro fuel
  induction fuel with
  | zero =>
    intro k db remaining idx _
    simp [dlGo]
  | succ fuel ih =>
    intro db remaining idx hd c hc
    by_cases h0 : remaining = 0
    · simp [dlGo, h0] at hc
    · have hmin : min 50 remaining = 50 := by omega
      simp only [dlGo] at hc
      rw [if_neg h0] at hc
      by_cases hm : (fetch idx).length = 0
      · simp [hm, hmin] at hc
        exact hc
      · rw [if_neg hm] at hc
        by_cases hlt : (fetch idx).length < min 50 remaining
        · rw [if_pos hlt] at hc
          simp [hmin] at hc
          exact hc
        · rw [if_neg hlt] at hc
          simp only [hmin, List.mem_cons] at hc
          rcases hc with hc | hc
          · exact hc
          · exact ih (saveBatch db now jid (fetch idx)).1
              (remaining - min 50 remaining) (idx + 1) (by omega) c
              (by simpa [hmin] using hc)

lemma dlGo_early_stop (now : Int) (fetch : Nat → List WAMessage)
    (jid : String) :
    ∀ (fuel : Nat) (db : DB) (remaining idx : Nat), 50 ∣ remaining →
      ∀ i, i + 1 < (dlGo now fetch jid fuel db remaining idx).requests.length →
        50 ≤ (fetch (idx + i)).length := by
  intro fuel
  induction fuel with
  | zero =>
    intro db remaining idx _ i hi
    simp [dlGo] at hi
  | succ fuel ih =>
    intro db remaining idx hd i hi
    by_cases h0 : remaining = 0
    · simp [dlGo, h0] at hi
    · have hmin : min 50 remaining = 50 := by omega
      simp only [dlGo] at hi
      rw [if_neg h0] at hi
      by_cases hm : (fetch idx).length = 0
      · simp [hm] at hi
      · rw [if_neg hm] at hi
        by_cases hlt : (fetch idx).length < min 50 remaining
        · rw [if_pos hlt] at hi
          simp at hi
        · rw [if_neg hlt] at hi
          simp only [List.length_cons] at hi
          rcases i with _ | i'
          · rw [hmin] at hlt
            simpa using Nat.le_of_not_lt hlt
          · have hrec := ih (saveBatch db now jid (fetch idx)).1
              (remaining - min 50 remaining) (idx + 1) (by omega) i'
              (by omega)
            have : idx + (i' + 1) = idx + 1 + i' := by omega
            rw [this]
            exact hrec

lemma filter_eq_of_filter_ne (l : List MessageRow) (id id' : String)
    (h : id' ≠ id) :
    (l.filter (fun r => !(r.id == id))).filter (fun r => r.id == id') =
      l.filter (fun r => r.id == id') := by
  induction l with
  | nil => rfl
  | cons a t ih =>
    by_cases ha : a.id = id
    · have hb : (a.id == id) = true := by simp [ha]
      have hb' : (a.id == id') = false :=
        beq_false_of_ne (by rw [ha]; exact fun hx => h hx.symm)
      simp [List.filter_cons, hb, hb', ih]
    · have hb : (a.id == id) = false := beq_false_of_ne ha
      simp [List.filter_cons, hb, ih]

lemma msgCount_saveMessage_ne (db : DB) (now : Int) (id chatJid : String)
    (fromMe : Bool) (content : Option String) (timestamp : Int)
    (messageType status : String) (id' : String) (h : id' ≠ id) :
    msgCount (saveMessage db now id chatJid fromMe content timestamp
      messageType status) id' = msgCount db id' := by
  simp only [msgCount, saveMessage, List.filter_append]
  rw [filter_eq_of_filter_ne _ _ _ h]
  simp [List.filter_cons, beq_false_of_ne (Ne.symm h)]

lemma getMessage_none_count (db : DB) (id : String)
    (h : getMessage db id = none) : msgCount db id = 0 := by
  unfold getMessage at h
  rw [List.find?_eq_none] at h
  unfold msgCount
  rw [List.filter_eq_nil_iff.mpr h]
  rfl

lemma saveDownloadedMsg_count (now : Int) (jid : String) (acc : DB × Nat)
    (msg : WAMessage) (id : String) (h : msgCount acc.1 id = 1) :
    msgCount (saveDownloadedMsg now jid acc msg).1 id = 1 := by
  unfold saveDownloadedMsg
  rcases hg : getMessage acc.1 msg.keyId with _ | mrow
  · by_cases hsave : getDisplayMessage msg ≠ "" ∨ getMessageType msg ≠ "text"
    · rw [if_pos hsave]
      have hne : id ≠ msg.keyId := by
        intro he
        rw [← he] at hg
        have := getMessage_none_count acc.1 id hg
        omega
      exact (msgCount_saveMessage_ne acc.1 now msg.keyId jid msg.fromMe
        (some (getDisplayMessage msg)) (msg.messageTimestamp * 1000)
        (getMessageType msg) "received" id hne).trans h
    · rw [if_neg hsave]
      exact h
  · simpa using h

lemma saveBatch_count_fold (now : Int) (jid : String) :
    ∀ (msgs : List WAMessage) (acc : DB × Nat) (id : String),
      msgCount acc.1 id = 1 →
      msgCount (msgs.foldl (saveDownloadedMsg now jid) acc).1 id = 1 := by
  intro msgs
  induction msgs with
  | nil =>
    intro acc id h
    simpa using h
  | cons m t ih =>
    intro acc id h
    simp only [List.foldl_cons]
    exact ih _ id (saveDownloadedMsg_count now jid acc m id h)

lemma saveBatch_count (db : DB) (now : Int) (jid : String)
    (msgs : List WAMessage) (id : String) (h : msgCount db id = 1) :
    msgCount (saveBatch db now jid msgs).1 id = 1 :=
  saveBatch_count_fold now jid msgs (db, 0) id h

lemma dlGo_count (now : Int) (fetch : Nat → List WAMessage) (jid : String) :
    ∀ (fuel : Nat) (db : DB) (remaining idx : Nat) (id : String),
      msgCount db id = 1 →
      msgCount (dlGo now fetch jid fuel db remaining idx).db id = 1 := by
  intro fuel
  induction fuel with
  | zero =>
    intro db remaining idx id h
    simpa [dlGo] using h
  | succ fuel ih =>
    intro db remaining idx id h
    by_cases h0 : remaining = 0
    · simpa [dlGo, h0] using h
    · simp only [dlGo]
      rw [if_neg h0]
      by_cases hm : (fetch idx).length = 0
      · simpa [hm] using h
      · rw [if_neg hm]
        by_cases hlt : (fetch idx).length < min 50 remaining
        · rw [if_pos hlt]
          simpa using saveBatch_count db now jid (fetch idx) id h
        · rw [if_neg hlt]
          exact ih (saveBatch db now jid (fetch idx)).1
            (remaining - min 50 remaining) (idx + 1) id
            (saveBatch_count db now jid (fetch idx) id h)

/-- Upstream message number i with plain text content hi. -/
def rangeMsg (i : Nat) : WAMessage :=
  { keyId := toString i, fromMe := false, pushName := none,
    messageTimestamp := 1,
    message := some { (default : InnerMessage) with conversation := some "hi" } }

/-- Stored row for upstream message number i. -/
def rangeRow (i : Nat) : MessageRow :=
  { id := toString i, chat_jid := "c", from_me := false,
    message_type := "text", content := some "hi", timestamp := 1000,
    status := "received" }

/-- Store already holding the fifty messages the upstream returns. -/
def db50 : DB :=
  { chats := [], messages := (List.range 50).map rangeRow, contacts := [] }

/-- Upstream that answers every fetch with the same full batch of fifty
already-stored messages. -/
def fetchSame (_k : Nat) : List WAMessage := (List.range 50).map rangeMsg

set_option maxRecDepth 10000 in
/-- C2 counterexample: when every message of every fetched batch already
exists locally, the batch loop does not stop early - it performs all ten
fetches up to the 500-message cap (saving nothing), instead of terminating
after the first all-duplicates batch. -/
theorem download_all_exist_no_stop_counterexample :
    (downloadMessageHistory true db50 0 fetchSame "c" 500).requests.length
      = 10 ∧
    (downloadMessageHistory true db50 0 fetchSame "c" 500).savedCount = 0 := by
  decide

/-- C2 amended: during first-sync the per-chat download loop fetches at most
500 messages in batches of exactly 50, and terminates early when a fetch
returns fewer messages than the requested batch size (in particular none);
per-message existence is checked by identifier before insertion, so
already-present messages are skipped and never duplicated, but a batch in
which every message already exists locally does not terminate the loop. -/
theorem downloadMessageHistory_batches (db : DB) (now : Int)
    (fetch : Nat → List WAMessage) (jid : String) :
    (downloadMessageHistory true db now fetch jid 500).requests.length ≤ 10 ∧
    (∀ c ∈ (downloadMessageHistory true db now fetch jid 500).requests,
      c = 50) ∧
    (∀ i, i + 1 <
        (downloadMessageHistory true db now fetch jid 500).requests.length →
      50 ≤ (fetch i).length) ∧
    (∀ id, msgCount db id = 1 →
      msgCount (downloadMessageHistory true db now fetch jid 500).db id
        = 1) := by
  have hunf : downloadMessageHistory true db now fetch jid 500 =
      dlGo now fetch jid 500 db 500 0 := rfl
  rw [hunf]
  refine ⟨?_, ?_, ?_, ?_⟩
  · exact dlGo_length_le now fetch jid 500 10 db 500 0 (by omega)
  · exact dlGo_reqs_all_50 now fetch jid 500 db 500 0 ⟨10, rfl⟩
  · intro i hi
    simpa using dlGo_early_stop now fetch jid 500 db 500 0 ⟨10, rfl⟩ i hi
  · intro id h
    exact dlGo_count now fetch jid 500 db 500 0 id h

/-- Upstream with no history at all. -/
def fetchNone (_k : Nat) : List WAMessage := []

/-- Witness for C2: with an empty upstream the loop makes exactly one fetch
request of 50 and stops, and an existing row keeps exactly one copy. -/
theorem downloadMessageHistory_batches_witness :
    (downloadMessageHistory true demoDB 0 fetchNone "c" 500).requests.length
      ≤ 10 ∧
    msgCount (downloadMessageHistory true demoDB 0 fetchNone "c" 500).db "m1"
      = 1 ∧
    (downloadMessageHistory true demoDB 0 fetchNone "c" 500).requests =
      [50] :=
  ⟨(downloadMessageHistory_batches demoDB 0 fetchNone "c").1,
   (downloadMessageHistory_batches demoDB 0 fetchNone "c").2.2.2 "m1"
     (by decide),
   by decide⟩

/-- Result of one incremental per-chat sync pass: final store, number of new
messages, and the window sizes requested from the upstream (one entry per
fetch call). -/
structure SyncResult where
  db : DB
  newCount : Nat
  fetchRequests : List Nat
deriving Repr, DecidableEq

/-- Reference timestamp of the incremental sync for one chat: the most recent
locally stored message timestamp (getMessages jid 1), or the passed last-sync
time when the chat has no stored message. -/
def syncReferenceTime (db : DB) (jid : String) (lastSyncTime : Int) : Int :=
  match getMessages db jid 1 0 with
  | [] => lastSyncTime
  | r :: _ => r.timestamp

/-- One message step of the incremental sync loop (syncChatMessages body):
messages at or before the reference timestamp are skipped, display content
must be truthy, existence is checked by identifier, and a saved message gets
type text and status received with its timestamp scaled to milliseconds. -/
def syncMsgStep (now : Int) (jid : String) (lastMessageTime : Int)
    (acc : DB × Nat) (msg : WAMessage) : DB × Nat :=
  if msg.messageTimestamp * 1000 ≤ lastMessageTime then acc
  else
    let content := getDisplayMessage msg
    if content ≠ "" then
      match getMessage acc.1 msg.keyId with
      | some _ => acc
      | none =>
        (saveMessage acc.1 now msg.keyId jid msg.fromMe (some content)
          (msg.messageTimestamp * 1000) "text" "received", acc.2 + 1)
    else acc

/-- syncChatMessages: nothing happens unless the upstream connection is open;
the chat is skipped without any fetch when now is within 60000 ms of the
reference timestamp; otherwise a window of 20 recent messages is fetched and
folded through the per-message step. -/
def syncChatMessages (connOpen : Bool) (db : DB) (now : Int)
    (fetch : Nat → List WAMessage) (jid : String) (lastSyncTime : Int) :
    SyncResult :=
  match connOpen with
  | false => { db := db, newCount := 0, fetchRequests := [] }
  | true =>
    if now - syncReferenceTime db jid lastSyncTime < 60000 then
      { db := db, newCount := 0, fetchRequests := [] }
    else
      let res := (fetch 20).foldl
        (syncMsgStep now jid (syncReferenceTime db jid lastSyncTime)) (db, 0)
      { db := res.1, newCount := res.2, fetchRequests := [20] }

/-- C5 counterexample: a chat whose newest stored message is old keeps being
fetched on every run - running the sync twice 30 seconds apart performs a
network fetch on both runs, because the 60-second check compares against the
newest stored message timestamp, not against the time the chat was last
checked. -/
theorem sync_rate_limit_counterexample :
    (syncChatMessages true demoDB 10000000 fetchNone "c" 0).fetchRequests
      = [20] ∧
    (syncChatMessages true
      (syncChatMessages true demoDB 10000000 fetchNone "c" 0).db
      10030000 fetchNone "c" 0).fetchRequests = [20] ∧
    (10030000 : Int) - 10000000 < 60000 := by
  decide

lemma syncMsgStep_messages_sound (now : Int) (jid : String) (ref : Int)
    (acc : DB × Nat) (msg : WAMessage) (id : String)
    (h : ∃ r ∈ (syncMsgStep now jid ref acc msg).1.messages, r.id = id) :
    (∃ r ∈ acc.1.messages, r.id = id) ∨
      (msg.keyId = id ∧ ref < msg.messageTimestamp * 1000) := by
  unfold syncMsgStep at h
  by_cases h1 : msg.messageTimestamp * 1000 ≤ ref
  · rw [if_pos h1] at h
    exact .inl h
  · rw [if_neg h1] at h
    by_cases h2 : getDisplayMessage msg ≠ ""
    · rw [if_pos h2] at h
      rcases hg : getMessage acc.1 msg.keyId with _ | mr
      · simp only [hg] at h
        obtain ⟨r, hr, hid⟩ := h
        simp only [saveMessage, List.mem_append] at hr
        rcases hr with hr | hr
        · exact .inl ⟨r, List.mem_of_mem_filter hr, hid⟩
        · refine .inr ⟨?_, lt_of_not_le h1⟩
          have : r.id = msg.keyId := by
            simp only [List.mem_singleton] at hr
            rw [hr]
          rw [← this, hid]
      · simp only [hg] at h
        exact .inl h
    · rw [if_neg h2] at h
      exact .inl h

lemma syncFold_insert_sound (now : Int) (jid : String) (ref : Int) :
    ∀ (msgs : List WAMessage) (acc : DB × Nat) (id : String),
      (∃ r ∈ (msgs.foldl (syncMsgStep now jid ref) acc).1.messages,
        r.id = id) →
      (∃ r ∈ acc.1.messages, r.id = id) ∨
        ∃ m ∈ msgs, m.keyId = id ∧ ref < m.messageTimestamp * 1000 := by
  intro msgs
  induction msgs with
  | nil =>
    intro acc id h
    exact .inl (by simpa using h)
  | cons m t ih =>
    intro acc id h
    simp only [List.foldl_cons] at h
    rcases ih (syncMsgStep now jid ref acc m) id h with hin | ⟨m', hm', hrest⟩
    · rcases syncMsgStep_messages_sound now jid ref acc m id hin with
        hacc | hnew
      · exact .inl hacc
      · exact .inr ⟨m, List.mem_cons_self m t, hnew⟩
    · exact .inr ⟨m', List.mem_cons_of_mem m hm', hrest⟩

lemma syncMsgStep_count (now : Int) (jid : String) (ref : Int)
    (acc : DB × Nat) (msg : WAMessage) (id : String)
    (h : msgCount acc.1 id = 1) :
    msgCount (syncMsgStep now jid ref acc msg).1 id = 1 := by
  unfold syncMsgStep
  by_cases h1 : msg.messageTimestamp * 1000 ≤ ref
  · rw [if_pos h1]
    exact h
  · rw [if_neg h1]
    by_cases h2 : getDisplayMessage msg ≠ ""
    · rw [if_pos h2]
      rcases hg : getMessage acc.1 msg.keyId with _ | mr
      · have hne : id ≠ msg.keyId := by
          intro he
          rw [← he] at hg
          have := getMessage_none_count acc.1 id hg
          omega
        exact (msgCount_saveMessage_ne acc.1 now msg.keyId jid msg.fromMe
          (some (getDisplayMessage msg)) (msg.messageTimestamp * 1000)
          "text" "received" id hne).trans h
      · exact h
    · rw [if_neg h2]
      exact h

lemma syncFold_count (now : Int) (jid : String) (ref : Int) :
    ∀ (msgs : List WAMessage) (acc : DB × Nat) (id : String),
      msgCount acc.1 id = 1 →
      msgCount (msgs.foldl (syncMsgStep now jid ref) acc).1 id = 1 := by
  intro msgs
  induction msgs with
  | nil =>
    intro acc id h
    simpa using h
  | cons m t ih =>
    intro acc id h
    simp only [List.foldl_cons]
    exact ih _ id (syncMsgStep_count now jid ref acc m id h)

/-- C5 amended: the incremental sync skips a chat without any network fetch
when the most recent locally stored message timestamp for the chat - or the
passed last-sync time when none is stored - lies within the last 60 seconds;
otherwise it fetches a window of 20 recent messages and inserts only messages
whose timestamp is strictly newer than that reference (and whose identifier
is not already present, so an existing row is never duplicated).  The check
is not a record of when the chat was last checked, so a second run within 60
seconds fetches again unless the first run stored a recent message. -/
theorem syncChatMessages_amended (db : DB) (now : Int)
    (fetch : Nat → List WAMessage) (jid : String) (lastSyncTime : Int) :
    (now - syncReferenceTime db jid lastSyncTime < 60000 →
      syncChatMessages true db now fetch jid lastSyncTime =
        { db := db, newCount := 0, fetchRequests := [] }) ∧
    (60000 ≤ now - syncReferenceTime db jid lastSyncTime →
      (syncChatMessages true db now fetch jid lastSyncTime).fetchRequests
        = [20] ∧
      ∀ id,
        (∃ r ∈ (syncChatMessages true db now fetch jid
          lastSyncTime).db.messages, r.id = id) →
        (∃ r ∈ db.messages, r.id = id) ∨
          ∃ m ∈ fetch 20, m.keyId = id ∧
            syncReferenceTime db jid lastSyncTime <
              m.messageTimestamp * 1000) ∧
    (∀ id, msgCount db id = 1 →
      msgCount (syncChatMessages true db now fetch jid lastSyncTime).db id
        = 1) := by
  refine ⟨fun h => ?_, fun h => ⟨?_, fun id hid => ?_⟩, fun id h => ?_⟩
  · simp only [syncChatMessages]
    rw [if_pos h]
  · simp only [syncChatMessages]
    rw [if_neg (not_lt.mpr h)]
  · simp only [syncChatMessages] at hid
    rw [if_neg (not_lt.mpr h)] at hid
    exact syncFold_insert_sound now jid
      (syncReferenceTime db jid lastSyncTime) (fetch 20) (db, 0) id hid
  · by_cases hrl : now - syncReferenceTime db jid lastSyncTime < 60000
    · simp only [syncChatMessages]
      rw [if_pos hrl]
      exact h
    · simp only [syncChatMessages]
      rw [if_neg hrl]
      exact syncFold_count now jid (syncReferenceTime db jid lastSyncTime)
        (fetch 20) (db, 0) id h

/-- Upstream window holding one message newer than everything stored. -/
def fetchFresh (_k : Nat) : List WAMessage :=
  [{ keyId := "n1", fromMe := false, pushName := none,
     messageTimestamp := 20000,
     message := some { (default : InnerMessage) with
       conversation := some "fresh" } }]

/-- Witness for C5: with the demonstration store (newest stored timestamp 30)
a run at time 10000000 is past the rate limit, so exactly one window of 20 is
requested; the existing row m1 keeps exactly one copy afterwards. -/
theorem syncChatMessages_amended_witness :
    (syncChatMessages true demoDB 10000000 fetchFresh "c" 0).fetchRequests
      = [20] ∧
    msgCount (syncChatMessages true demoDB 10000000 fetchFresh "c" 0).db "m1"
      = 1 ∧
    (syncChatMessages true demoDB 10000000 fetchFresh "c" 0).newCount = 1 :=
  ⟨((syncChatMessages_amended demoDB 10000000 fetchFresh "c" 0).2.1
      (by decide)).1,
   (syncChatMessages_amended demoDB 10000000 fetchFresh "c" 0).2.2 "m1"
     (by decide),
   by decide⟩

end Karere

